import Mathlib

/-!
Shallow embedding of the flumio-luncher bootstrap orchestration.

Source files embedded here:
* `src/main.ts` — the Bootstrap Orchestrator: `bootstrapApp`, the
  `app.on("ready")` / `app.on("activate")` handlers and their catch blocks.
* `src/dockerInstallHelper.ts` — `showDockerMissingDialog` (the Install
  Assistant).

The collaborators `startStack` and `waitForHttpReady` live in
`src/dockerManager.ts`, which is outside the orchestrator; per the spec they
are black boxes returning one of four `RuntimeStatus` values resp. a boolean,
and either one may also throw. They are modelled as oracles in an `Env`:
the k-th call to each collaborator returns the k-th entry of the
corresponding stream, `Except.error` standing for a thrown exception.

Electron side effects (window creation, `loadURL`, dialogs, `shell.openExternal`,
`app.quit`, `console.error`) are recorded in an explicit `AppState`.
-/

/-- The four values of the union type returned by `startStack` in
`dockerManager.ts`: string literals `"docker_missing"`, `"docker_daemon_off"`,
`"compose_error"` and the remaining success value (spec: `Ready`).
`main.ts` tests the three failure strings with `===` and falls through to the
readiness probe otherwise. -/
inductive RuntimeStatus where
  | docker_missing
  | docker_daemon_off
  | compose_error
  | ready
deriving DecidableEq, Repr

/-- `type InstallAction = "retry" | "quit"` from `dockerInstallHelper.ts`. -/
inductive InstallAction where
  | retry
  | quit
deriving DecidableEq, Repr

/-- `const APP_URL = "http://localhost:8080"` in `main.ts`. -/
def APP_URL : String := "http://localhost:8080"

/-- The inline `data:` URL of the placeholder page loaded into the fresh
window before `startStack` is called (`main.ts` lines 32-69). Its HTML body
is presentation-only and is abbreviated here; the orchestration logic only
ever distinguishes it from `APP_URL`. -/
def placeholderPage : String := "data:text/html;charset=utf-8,(starting-backend placeholder page)"

/-- `getDockerDownloadUrl()` in `dockerInstallHelper.ts`. -/
def getDockerDownloadUrl : String := "https://www.docker.com/products/docker-desktop/"

/-- Title of the error box in the `compose_error` branch of `main.ts`. -/
def composeErrorTitle : String := "Failed to start Docker stack"

/-- Body of the error box in the `compose_error` branch of `main.ts`. -/
def composeErrorMessage : String := "Docker Compose returned an error. Open the app from the terminal to see logs, or check Docker Desktop."

/-- Title of the error box shown when `waitForHttpReady` returns false. -/
def backendErrorTitle : String := "Backend not responding"

/-- Body of the error box shown when `waitForHttpReady` returns false. -/
def backendErrorMessage : String := "The containers started, but the web server did not respond in time."

/-- Title of the generic error box in the catch blocks of `main.ts`. -/
def unexpectedErrorTitle : String := "Unexpected error"

/-- Body of the generic error box in the catch blocks of `main.ts`. -/
def unexpectedErrorMessage : String := "Something went wrong while starting the Docker stack."

/-- `showDockerMissingDialog` from `dockerInstallHelper.ts`, as a function of
the dialog response index chosen by the user (Electron reports the pressed
button as a number; button 0 is "Open Docker download page", button 1, also
the `cancelId`, is "Quit"). The platform-dependent `message` string shown in
the dialog does not influence the result and is omitted. Returns the
`InstallAction` handed back to the caller together with the list of URLs
opened externally via `shell.openExternal`: on response 0 the Docker download
page is opened and `"quit"` is returned; on any other response `"quit"` is
returned directly. -/
def showDockerMissingDialog (response : Nat) : InstallAction × List String :=
  if response = 0 then
    (InstallAction.quit, [getDockerDownloadUrl])
  else
    (InstallAction.quit, [])

/-- An Electron `BrowserWindow` as far as the orchestrator observes it:
its identity, the URL currently loaded into it, and whether the
`on("closed")` hook of `main.ts` line 152 has been attached to it. -/
structure Window where
  id : Nat
  content : String
  hasClosedHook : Bool
deriving DecidableEq, Repr

/-- Observable state of the process: the module-level `mainWindow` variable
of `main.ts` plus cumulative records of every side effect the orchestrator
has performed (window creations, collaborator calls, dialogs, error boxes,
externally opened URLs, `console.error` logs, and whether `app.quit` ran). -/
structure AppState where
  mainWindow : Option Window
  nextWindowId : Nat
  windowsCreated : Nat
  passesStarted : Nat
  startCalls : Nat
  waitCalls : Nat
  installDialogCalls : Nat
  daemonDialogCalls : Nat
  errorBoxes : List (String × String)
  externalOpens : List String
  logs : List String
  quitCalled : Bool
deriving DecidableEq, Repr

/-- The state of a freshly started process, before any orchestration pass. -/
def initState : AppState :=
  { mainWindow := none
    nextWindowId := 0
    windowsCreated := 0
    passesStarted := 0
    startCalls := 0
    waitCalls := 0
    installDialogCalls := 0
    daemonDialogCalls := 0
    errorBoxes := []
    externalOpens := []
    logs := []
    quitCalled := false }

/-- Oracles for the collaborators and the user. `startResults k` is what the
k-th call to `startStack` does (`Except.error e` = it throws `e`);
`readyResults k` likewise for `waitForHttpReady`. `daemonOffResponses k` is
the button index the user presses in the k-th "Docker is not running"
dialog (0 = Retry, 1 = Quit); `installResponses k` the button index in the
k-th Docker-missing dialog (0 = open download page, 1 = Quit). -/
structure Env where
  startResults : Nat → Except String RuntimeStatus
  readyResults : Nat → Except String Bool
  daemonOffResponses : Nat → Nat
  installResponses : Nat → Nat

/-- How a single body of `bootstrapApp` ends: it returns normally
(`done`), it reaches the recursive `await bootstrapApp()` of the Retry
branch (`retry`), or an awaited collaborator throws (`threw`). -/
inductive PassOutcome where
  | done
  | retry
  | threw (e : String)
deriving DecidableEq, Repr

/-- One body of `bootstrapApp` (`main.ts` lines 17-155) up to, but not
including, the recursive call of the Retry branch. In source order: a new
`BrowserWindow` is constructed and assigned to the module-level `mainWindow`,
the placeholder page is loaded into it, `startStack()` is awaited, and the
returned status is dispatched exactly as the `if` chain of the source does,
falling through to `waitForHttpReady` when none of the three failure strings
matched. -/
def bootstrapOnce (env : Env) (st : AppState) : AppState × PassOutcome :=
  let win : Window := { id := st.nextWindowId, content := placeholderPage, hasClosedHook := false }
  let st1 : AppState := { st with
    mainWindow := some win
    nextWindowId := st.nextWindowId + 1
    windowsCreated := st.windowsCreated + 1
    passesStarted := st.passesStarted + 1 }
  let st2 : AppState := { st1 with startCalls := st1.startCalls + 1 }
  match env.startResults st.startCalls with
  | Except.error e => (st2, PassOutcome.threw e)
  | Except.ok status =>
    if status = RuntimeStatus.docker_missing then
      -- Open Docker download page and quit; the returned InstallAction is discarded.
      let dlg := showDockerMissingDialog (env.installResponses st2.installDialogCalls)
      ({ st2 with
          installDialogCalls := st2.installDialogCalls + 1
          externalOpens := st2.externalOpens ++ dlg.2
          quitCalled := true }, PassOutcome.done)
    else if status = RuntimeStatus.docker_daemon_off then
      let resp := env.daemonOffResponses st2.daemonDialogCalls
      let st3 : AppState := { st2 with daemonDialogCalls := st2.daemonDialogCalls + 1 }
      if resp = 0 then
        (st3, PassOutcome.retry)
      else
        ({ st3 with quitCalled := true }, PassOutcome.done)
    else if status = RuntimeStatus.compose_error then
      ({ st2 with
          errorBoxes := st2.errorBoxes ++ [(composeErrorTitle, composeErrorMessage)]
          quitCalled := true }, PassOutcome.done)
    else
      match env.readyResults st2.waitCalls with
      | Except.error e => ({ st2 with waitCalls := st2.waitCalls + 1 }, PassOutcome.threw e)
      | Except.ok ready =>
        let st4 : AppState := { st2 with waitCalls := st2.waitCalls + 1 }
        if ready = false then
          ({ st4 with
              errorBoxes := st4.errorBoxes ++ [(backendErrorTitle, backendErrorMessage)]
              quitCalled := true }, PassOutcome.done)
        else
          ({ st4 with
              mainWindow := st4.mainWindow.map fun w =>
                { w with content := APP_URL, hasClosedHook := true } }, PassOutcome.done)

/-- Full `bootstrapApp`: iterates `bootstrapOnce`, following the recursive
self-call of the Retry branch (the source line `await bootstrapApp(); return;`
is a tail call, so the whole function is this tail-recursive loop). `fuel`
bounds the number of passes only so the definition is total; `none` means
the fuel ran out before the run ended, which never happens for any run in
which the user stops retrying. The result pairs the final state with
`Except.ok ()` for a normal return or `Except.error e` for a propagated
collaborator exception. -/
def bootstrapApp : Nat → Env → AppState → Option (AppState × Except String Unit)
  | 0, _, _ => none
  | fuel + 1, env, st =>
    match bootstrapOnce env st with
    | (st2, PassOutcome.retry) => bootstrapApp fuel env st2
    | (st2, PassOutcome.done) => some (st2, Except.ok ())
    | (st2, PassOutcome.threw e) => some (st2, Except.error e)

/-- The `.catch` wrapper both lifecycle handlers of `main.ts` put around
`bootstrapApp()`: a normal completion is left alone; a propagated exception
is logged via `console.error("Bootstrap error:", err)`, a generic
"Unexpected error" box is shown, and `app.quit()` is called. -/
def runBootstrapWithCatch (fuel : Nat) (env : Env) (st : AppState) : Option AppState :=
  match bootstrapApp fuel env st with
  | none => none
  | some (st2, Except.ok _) => some st2
  | some (st2, Except.error e) =>
    some { st2 with
      logs := st2.logs ++ ["Bootstrap error: " ++ e]
      errorBoxes := st2.errorBoxes ++ [(unexpectedErrorTitle, unexpectedErrorMessage)]
      quitCalled := true }

/-- The `app.on("ready")` handler of `main.ts`: run the orchestrator once
under the catch wrapper. -/
def onReadyHandler (fuel : Nat) (env : Env) (st : AppState) : Option AppState :=
  runBootstrapWithCatch fuel env st

/-- The `app.on("activate")` handler of `main.ts`: if
`BrowserWindow.getAllWindows().length === 0` (passed in as
`openWindowCount`), run the orchestrator under the catch wrapper; otherwise
do nothing. -/
def onActivateHandler (fuel : Nat) (env : Env) (openWindowCount : Nat) (st : AppState) : Option AppState :=
  if openWindowCount = 0 then runBootstrapWithCatch fuel env st else some st

/-- The platform closing the window held in `mainWindow`. If the
`on("closed")` hook of `main.ts` line 152 was attached to it, the hook sets
the module-level `mainWindow` to null; otherwise the reference is left as it
is. -/
def closeMainWindow (st : AppState) : AppState :=
  match st.mainWindow with
  | none => st
  | some w => if w.hasClosedHook then { st with mainWindow := none } else st

/-! ### Concrete oracle environments used to instantiate the theorems -/

/-- Every `startStack` call reports `ready` and every probe succeeds. -/
def happyEnv : Env :=
  { startResults := fun _ => Except.ok RuntimeStatus.ready
    readyResults := fun _ => Except.ok true
    daemonOffResponses := fun _ => 1
    installResponses := fun _ => 1 }

/-- Docker is never installed; the user asks for the download page. -/
def missingEnv : Env :=
  { startResults := fun _ => Except.ok RuntimeStatus.docker_missing
    readyResults := fun _ => Except.ok true
    daemonOffResponses := fun _ => 1
    installResponses := fun _ => 0 }

/-- The daemon is off and the user presses Quit. -/
def daemonQuitEnv : Env :=
  { startResults := fun _ => Except.ok RuntimeStatus.docker_daemon_off
    readyResults := fun _ => Except.ok true
    daemonOffResponses := fun _ => 1
    installResponses := fun _ => 1 }

/-- The stack fails to compose. -/
def composeEnv : Env :=
  { startResults := fun _ => Except.ok RuntimeStatus.compose_error
    readyResults := fun _ => Except.ok true
    daemonOffResponses := fun _ => 1
    installResponses := fun _ => 1 }

/-- The stack starts but the backend never answers. -/
def timeoutEnv : Env :=
  { startResults := fun _ => Except.ok RuntimeStatus.ready
    readyResults := fun _ => Except.ok false
    daemonOffResponses := fun _ => 1
    installResponses := fun _ => 1 }

/-- The first `startStack` call throws. -/
def throwEnv : Env :=
  { startResults := fun _ => Except.error "ENOENT docker compose"
    readyResults := fun _ => Except.ok true
    daemonOffResponses := fun _ => 1
    installResponses := fun _ => 1 }

/-- The daemon is off on the first probe and running afterwards; the user
always presses Retry in the daemon-off dialog. -/
def retryOnceEnv : Env :=
  { startResults := fun k =>
      if k = 0 then Except.ok RuntimeStatus.docker_daemon_off
      else Except.ok RuntimeStatus.ready
    readyResults := fun _ => Except.ok true
    daemonOffResponses := fun _ => 0
    installResponses := fun _ => 1 }

/-- The daemon is always off; the user presses Retry in the first `n`
daemon-off dialogs and Quit in the next one. -/
def retryNTimesEnv (n : Nat) : Env :=
  { startResults := fun _ => Except.ok RuntimeStatus.docker_daemon_off
    readyResults := fun _ => Except.ok true
    daemonOffResponses := fun k => if k < n then 0 else 1
    installResponses := fun _ => 1 }

/-! ### Branch characterizations of one orchestration pass -/

/-- `startStack` throws: the exception propagates out of `bootstrapApp`. -/
theorem bootstrapOnce_throw_start (env : Env) (st : AppState) (e : String)
    (h : env.startResults st.startCalls = Except.error e) :
    bootstrapOnce env st =
      ({ st with
          mainWindow := some { id := st.nextWindowId, content := placeholderPage, hasClosedHook := false }
          nextWindowId := st.nextWindowId + 1
          windowsCreated := st.windowsCreated + 1
          passesStarted := st.passesStarted + 1
          startCalls := st.startCalls + 1 }, PassOutcome.threw e) := by
  simp [bootstrapOnce, h]

/-- The `docker_missing` branch: the Install Assistant dialog is shown, its
`InstallAction` result is discarded (only its external-open side effects
reach the state), and `app.quit()` runs. -/
theorem bootstrapOnce_missing (env : Env) (st : AppState)
    (h : env.startResults st.startCalls = Except.ok RuntimeStatus.docker_missing) :
    bootstrapOnce env st =
      ({ st with
          mainWindow := some { id := st.nextWindowId, content := placeholderPage, hasClosedHook := false }
          nextWindowId := st.nextWindowId + 1
          windowsCreated := st.windowsCreated + 1
          passesStarted := st.passesStarted + 1
          startCalls := st.startCalls + 1
          installDialogCalls := st.installDialogCalls + 1
          externalOpens := st.externalOpens ++ (showDockerMissingDialog (env.installResponses st.installDialogCalls)).2
          quitCalled := true }, PassOutcome.done) := by
  simp [bootstrapOnce, h]

/-- The `docker_daemon_off` branch with button 0 (Retry): the warning dialog
is shown and the body reaches the recursive `await bootstrapApp()`. -/
theorem bootstrapOnce_daemon_retry (env : Env) (st : AppState)
    (h : env.startResults st.startCalls = Except.ok RuntimeStatus.docker_daemon_off)
    (hr : env.daemonOffResponses st.daemonDialogCalls = 0) :
    bootstrapOnce env st =
      ({ st with
          mainWindow := some { id := st.nextWindowId, content := placeholderPage, hasClosedHook := false }
          nextWindowId := st.nextWindowId + 1
          windowsCreated := st.windowsCreated + 1
          passesStarted := st.passesStarted + 1
          startCalls := st.startCalls + 1
          daemonDialogCalls := st.daemonDialogCalls + 1 }, PassOutcome.retry) := by
  simp [bootstrapOnce, h, hr]

/-- The `docker_daemon_off` branch with any button other than 0 (Quit):
the warning dialog is shown and `app.quit()` runs. -/
theorem bootstrapOnce_daemon_quit (env : Env) (st : AppState)
    (h : env.startResults st.startCalls = Except.ok RuntimeStatus.docker_daemon_off)
    (hr : env.daemonOffResponses st.daemonDialogCalls ≠ 0) :
    bootstrapOnce env st =
      ({ st with
          mainWindow := some { id := st.nextWindowId, content := placeholderPage, hasClosedHook := false }
          nextWindowId := st.nextWindowId + 1
          windowsCreated := st.windowsCreated + 1
          passesStarted := st.passesStarted + 1
          startCalls := st.startCalls + 1
          daemonDialogCalls := st.daemonDialogCalls + 1
          quitCalled := true }, PassOutcome.done) := by
  simp [bootstrapOnce, h, hr]

/-- The `compose_error` branch: one error box, then `app.quit()`. -/
theorem bootstrapOnce_compose (env : Env) (st : AppState)
    (h : env.startResults st.startCalls = Except.ok RuntimeStatus.compose_error) :
    bootstrapOnce env st =
      ({ st with
          mainWindow := some { id := st.nextWindowId, content := placeholderPage, hasClosedHook := false }
          nextWindowId := st.nextWindowId + 1
          windowsCreated := st.windowsCreated + 1
          passesStarted := st.passesStarted + 1
          startCalls := st.startCalls + 1
          errorBoxes := st.errorBoxes ++ [(composeErrorTitle, composeErrorMessage)]
          quitCalled := true }, PassOutcome.done) := by
  simp [bootstrapOnce, h]

/-- The fall-through (`Ready`) branch when `waitForHttpReady` throws. -/
theorem bootstrapOnce_throw_wait (env : Env) (st : AppState) (e : String)
    (h : env.startResults st.startCalls = Except.ok RuntimeStatus.ready)
    (hw : env.readyResults st.waitCalls = Except.error e) :
    bootstrapOnce env st =
      ({ st with
          mainWindow := some { id := st.nextWindowId, content := placeholderPage, hasClosedHook := false }
          nextWindowId := st.nextWindowId + 1
          windowsCreated := st.windowsCreated + 1
          passesStarted := st.passesStarted + 1
          startCalls := st.startCalls + 1
          waitCalls := st.waitCalls + 1 }, PassOutcome.threw e) := by
  simp [bootstrapOnce, h, hw]

/-- The `Ready` branch with a failed readiness probe: one error box, then
`app.quit()`; the window keeps the placeholder page and gets no closed hook. -/
theorem bootstrapOnce_ready_timeout (env : Env) (st : AppState)
    (h : env.startResults st.startCalls = Except.ok RuntimeStatus.ready)
    (hw : env.readyResults st.waitCalls = Except.ok false) :
    bootstrapOnce env st =
      ({ st with
          mainWindow := some { id := st.nextWindowId, content := placeholderPage, hasClosedHook := false }
          nextWindowId := st.nextWindowId + 1
          windowsCreated := st.windowsCreated + 1
          passesStarted := st.passesStarted + 1
          startCalls := st.startCalls + 1
          waitCalls := st.waitCalls + 1
          errorBoxes := st.errorBoxes ++ [(backendErrorTitle, backendErrorMessage)]
          quitCalled := true }, PassOutcome.done) := by
  simp [bootstrapOnce, h, hw]

/-- The success path: `Ready` and a positive probe. `APP_URL` is loaded into
the window and the `on("closed")` hook is attached; no error box, no quit. -/
theorem bootstrapOnce_ready_ok (env : Env) (st : AppState)
    (h : env.startResults st.startCalls = Except.ok RuntimeStatus.ready)
    (hw : env.readyResults st.waitCalls = Except.ok true) :
    bootstrapOnce env st =
      ({ st with
          mainWindow := some { id := st.nextWindowId, content := APP_URL, hasClosedHook := true }
          nextWindowId := st.nextWindowId + 1
          windowsCreated := st.windowsCreated + 1
          passesStarted := st.passesStarted + 1
          startCalls := st.startCalls + 1
          waitCalls := st.waitCalls + 1 }, PassOutcome.done) := by
  simp [bootstrapOnce, h, hw]

/-! ### Per-pass counter facts -/

/-- Every entered pass constructs exactly one new `BrowserWindow`, whatever
branch it then takes. -/
theorem bootstrapOnce_windowsCreated (env : Env) (st : AppState) :
    (bootstrapOnce env st).1.windowsCreated = st.windowsCreated + 1 := by
  cases hs : env.startResults st.startCalls with
  | error e => rw [bootstrapOnce_throw_start env st e hs]
  | ok status =>
    cases status with
    | docker_missing => rw [bootstrapOnce_missing env st hs]
    | docker_daemon_off =>
      by_cases hr : env.daemonOffResponses st.daemonDialogCalls = 0
      · rw [bootstrapOnce_daemon_retry env st hs hr]
      · rw [bootstrapOnce_daemon_quit env st hs hr]
    | compose_error => rw [bootstrapOnce_compose env st hs]
    | ready =>
      cases hw : env.readyResults st.waitCalls with
      | error e => rw [bootstrapOnce_throw_wait env st e hs hw]
      | ok b =>
        cases b with
        | false => rw [bootstrapOnce_ready_timeout env st hs hw]
        | true => rw [bootstrapOnce_ready_ok env st hs hw]

/-- Every entered pass counts as exactly one started orchestration pass. -/
theorem bootstrapOnce_passesStarted (env : Env) (st : AppState) :
    (bootstrapOnce env st).1.passesStarted = st.passesStarted + 1 := by
  cases hs : env.startResults st.startCalls with
  | error e => rw [bootstrapOnce_throw_start env st e hs]
  | ok status =>
    cases status with
    | docker_missing => rw [bootstrapOnce_missing env st hs]
    | docker_daemon_off =>
      by_cases hr : env.daemonOffResponses st.daemonDialogCalls = 0
      · rw [bootstrapOnce_daemon_retry env st hs hr]
      · rw [bootstrapOnce_daemon_quit env st hs hr]
    | compose_error => rw [bootstrapOnce_compose env st hs]
    | ready =>
      cases hw : env.readyResults st.waitCalls with
      | error e => rw [bootstrapOnce_throw_wait env st e hs hw]
      | ok b =>
        cases b with
        | false => rw [bootstrapOnce_ready_timeout env st hs hw]
        | true => rw [bootstrapOnce_ready_ok env st hs hw]

/-- A pass can only request a retry out of the `docker_daemon_off` branch
with button 0; if the user never presses button 0 in that dialog, no pass
retries. -/
theorem bootstrapOnce_no_retry (env : Env) (st : AppState)
    (hNoRetry : ∀ n, env.daemonOffResponses n ≠ 0) :
    (bootstrapOnce env st).2 ≠ PassOutcome.retry := by
  cases hs : env.startResults st.startCalls with
  | error e => rw [bootstrapOnce_throw_start env st e hs]; simp
  | ok status =>
    cases status with
    | docker_missing => rw [bootstrapOnce_missing env st hs]; simp
    | docker_daemon_off =>
      rw [bootstrapOnce_daemon_quit env st hs (hNoRetry _)]; simp
    | compose_error => rw [bootstrapOnce_compose env st hs]; simp
    | ready =>
      cases hw : env.readyResults st.waitCalls with
      | error e => rw [bootstrapOnce_throw_wait env st e hs hw]; simp
      | ok b =>
        cases b with
        | false => rw [bootstrapOnce_ready_timeout env st hs hw]; simp
        | true => rw [bootstrapOnce_ready_ok env st hs hw]; simp

/-! ### Invariants of the full (fuelled) orchestrator -/

/-- Any completed run entered at least one pass and created at least one
window beyond what was already there. -/
theorem bootstrapApp_counters_ge (fuel : Nat) (env : Env) (st : AppState)
    (r : AppState × Except String Unit) (h : bootstrapApp fuel env st = some r) :
    st.windowsCreated + 1 ≤ r.1.windowsCreated ∧ st.passesStarted + 1 ≤ r.1.passesStarted := by
  induction fuel generalizing st with
  | zero => simp [bootstrapApp] at h
  | succ fuel ih =>
    rw [bootstrapApp] at h
    cases ho : bootstrapOnce env st with
    | mk st2 outcome =>
      have hw : st2.windowsCreated = st.windowsCreated + 1 := by
        have := bootstrapOnce_windowsCreated env st; rw [ho] at this; exact this
      have hp : st2.passesStarted = st.passesStarted + 1 := by
        have := bootstrapOnce_passesStarted env st; rw [ho] at this; exact this
      rw [ho] at h
      cases outcome with
      | retry =>
        have := ih st2 h
        omega
      | done =>
        simp at h
        subst h
        show st.windowsCreated + 1 ≤ st2.windowsCreated ∧ st.passesStarted + 1 ≤ st2.passesStarted
        omega
      | threw e =>
        simp at h
        subst h
        show st.windowsCreated + 1 ≤ st2.windowsCreated ∧ st.passesStarted + 1 ≤ st2.passesStarted
        omega

/-- Across a completed run, the number of windows created equals the number
of orchestration passes entered: each pass (the initial one and each
Retry re-entry) constructs its own fresh window. -/
theorem bootstrapApp_counters_eq (fuel : Nat) (env : Env) (st : AppState)
    (r : AppState × Except String Unit) (h : bootstrapApp fuel env st = some r) :
    r.1.windowsCreated + st.passesStarted = r.1.passesStarted + st.windowsCreated := by
  induction fuel generalizing st with
  | zero => simp [bootstrapApp] at h
  | succ fuel ih =>
    rw [bootstrapApp] at h
    cases ho : bootstrapOnce env st with
    | mk st2 outcome =>
      have hw : st2.windowsCreated = st.windowsCreated + 1 := by
        have := bootstrapOnce_windowsCreated env st; rw [ho] at this; exact this
      have hp : st2.passesStarted = st.passesStarted + 1 := by
        have := bootstrapOnce_passesStarted env st; rw [ho] at this; exact this
      rw [ho] at h
      cases outcome with
      | retry =>
        have := ih st2 h
        omega
      | done =>
        simp at h
        subst h
        show st2.windowsCreated + st.passesStarted = st2.passesStarted + st.windowsCreated
        omega
      | threw e =>
        simp at h
        subst h
        show st2.windowsCreated + st.passesStarted = st2.passesStarted + st.windowsCreated
        omega

/-! ### Claim theorems -/

/-- C1: for every one of the four `RuntimeStatus` values returned by
`startStack`, one orchestration pass takes exactly the documented branch and
no other: `docker_missing` shows the remediation dialog (and nothing else)
and quits; `docker_daemon_off` shows the Retry/Quit dialog (and nothing
else); `compose_error` shows exactly the one-button compose error notice and
quits; `ready` proceeds to the readiness probe without any dialog. -/
theorem C1_status_dispatch (env : Env) (st : AppState) (s : RuntimeStatus)
    (h : env.startResults st.startCalls = Except.ok s) :
    (s = RuntimeStatus.docker_missing →
      (bootstrapOnce env st).1.installDialogCalls = st.installDialogCalls + 1 ∧
      (bootstrapOnce env st).1.daemonDialogCalls = st.daemonDialogCalls ∧
      (bootstrapOnce env st).1.waitCalls = st.waitCalls ∧
      (bootstrapOnce env st).1.errorBoxes = st.errorBoxes ∧
      (bootstrapOnce env st).1.quitCalled = true ∧
      (bootstrapOnce env st).2 = PassOutcome.done) ∧
    (s = RuntimeStatus.docker_daemon_off →
      (bootstrapOnce env st).1.daemonDialogCalls = st.daemonDialogCalls + 1 ∧
      (bootstrapOnce env st).1.installDialogCalls = st.installDialogCalls ∧
      (bootstrapOnce env st).1.waitCalls = st.waitCalls ∧
      (bootstrapOnce env st).1.errorBoxes = st.errorBoxes ∧
      ((bootstrapOnce env st).2 = PassOutcome.retry ∨
        ((bootstrapOnce env st).2 = PassOutcome.done ∧
          (bootstrapOnce env st).1.quitCalled = true))) ∧
    (s = RuntimeStatus.compose_error →
      (bootstrapOnce env st).1.errorBoxes = st.errorBoxes ++ [(composeErrorTitle, composeErrorMessage)] ∧
      (bootstrapOnce env st).1.installDialogCalls = st.installDialogCalls ∧
      (bootstrapOnce env st).1.daemonDialogCalls = st.daemonDialogCalls ∧
      (bootstrapOnce env st).1.waitCalls = st.waitCalls ∧
      (bootstrapOnce env st).1.quitCalled = true ∧
      (bootstrapOnce env st).2 = PassOutcome.done) ∧
    (s = RuntimeStatus.ready →
      (bootstrapOnce env st).1.waitCalls = st.waitCalls + 1 ∧
      (bootstrapOnce env st).1.installDialogCalls = st.installDialogCalls ∧
      (bootstrapOnce env st).1.daemonDialogCalls = st.daemonDialogCalls ∧
      (bootstrapOnce env st).1.errorBoxes = st.errorBoxes ∨
      ((bootstrapOnce env st).1.waitCalls = st.waitCalls + 1 ∧
        (bootstrapOnce env st).1.installDialogCalls = st.installDialogCalls ∧
        (bootstrapOnce env st).1.daemonDialogCalls = st.daemonDialogCalls)) := by
  refine ⟨?_, ?_, ?_, ?_⟩
  · intro hs
    subst hs
    rw [bootstrapOnce_missing env st h]
    simp
  · intro hs
    subst hs
    by_cases hr : env.daemonOffResponses st.daemonDialogCalls = 0
    · rw [bootstrapOnce_daemon_retry env st h hr]
      simp
    · rw [bootstrapOnce_daemon_quit env st h hr]
      simp
  · intro hs
    subst hs
    rw [bootstrapOnce_compose env st h]
    simp
  · intro hs
    subst hs
    cases hw : env.readyResults st.waitCalls with
    | error e =>
      right
      rw [bootstrapOnce_throw_wait env st e h hw]
      simp
    | ok b =>
      cases b with
      | false =>
        right
        rw [bootstrapOnce_ready_timeout env st h hw]
        simp
      | true =>
        left
        rw [bootstrapOnce_ready_ok env st h hw]
        simp

/-- Witness for C1: in the all-`ready` environment the pass probes readiness
once and shows neither dialog. -/
theorem C1_status_dispatch_witness :
    (bootstrapOnce happyEnv initState).1.waitCalls = 1 ∧
    (bootstrapOnce happyEnv initState).1.installDialogCalls = 0 ∧
    (bootstrapOnce happyEnv initState).1.daemonDialogCalls = 0 := by
  have h := (C1_status_dispatch happyEnv initState RuntimeStatus.ready rfl).2.2.2 rfl
  cases h with
  | inl h => exact ⟨h.1, h.2.1, h.2.2.1⟩
  | inr h => exact h

/-- C3: when `startStack` reports `docker_missing`, the orchestrator shows
the Install Assistant dialog and then quits; this holds for every button the
user can press, and the `InstallAction` value the dialog returns never
branches the orchestrator (runs that differ only in the install-dialog
responses end with the same outcome and the same quit flag, and never reach
the readiness probe). -/
theorem C3_missing_always_terminates (env : Env) (st : AppState)
    (resp1 resp2 : Nat → Nat)
    (h : env.startResults st.startCalls = Except.ok RuntimeStatus.docker_missing) :
    (bootstrapOnce { env with installResponses := resp1 } st).1.installDialogCalls = st.installDialogCalls + 1 ∧
    (bootstrapOnce { env with installResponses := resp1 } st).1.quitCalled = true ∧
    (bootstrapOnce { env with installResponses := resp1 } st).2 = PassOutcome.done ∧
    (bootstrapOnce { env with installResponses := resp1 } st).1.waitCalls = st.waitCalls ∧
    (bootstrapOnce { env with installResponses := resp1 } st).2 =
      (bootstrapOnce { env with installResponses := resp2 } st).2 ∧
    (bootstrapOnce { env with installResponses := resp1 } st).1.quitCalled =
      (bootstrapOnce { env with installResponses := resp2 } st).1.quitCalled := by
  rw [bootstrapOnce_missing { env with installResponses := resp1 } st h,
    bootstrapOnce_missing { env with installResponses := resp2 } st h]
  simp

/-- Witness for C3: Docker missing, user presses button 0. -/
theorem C3_missing_always_terminates_witness :
    (bootstrapOnce missingEnv initState).1.installDialogCalls = 1 ∧
    (bootstrapOnce missingEnv initState).1.quitCalled = true ∧
    (bootstrapOnce missingEnv initState).2 = PassOutcome.done ∧
    (bootstrapOnce missingEnv initState).1.waitCalls = 0 := by
  have h := C3_missing_always_terminates missingEnv initState
    missingEnv.installResponses (fun _ => 1) rfl
  exact ⟨h.1, h.2.1, h.2.2.1, h.2.2.2.1⟩

/-- C4: `docker_daemon_off` followed by Quit terminates the run without ever
calling `waitForHttpReady` in that pass. -/
theorem C4_daemon_quit_no_probe (fuel : Nat) (env : Env) (st : AppState)
    (h : env.startResults st.startCalls = Except.ok RuntimeStatus.docker_daemon_off)
    (hq : env.daemonOffResponses st.daemonDialogCalls = 1) :
    ∃ st2, bootstrapApp (fuel + 1) env st = some (st2, Except.ok ()) ∧
      st2.quitCalled = true ∧ st2.waitCalls = st.waitCalls := by
  have hr : env.daemonOffResponses st.daemonDialogCalls ≠ 0 := by omega
  rw [bootstrapApp, bootstrapOnce_daemon_quit env st h hr]
  exact ⟨_, rfl, rfl, rfl⟩

/-- Witness for C4: daemon off, Quit pressed, probe never called. -/
theorem C4_daemon_quit_no_probe_witness :
    ((bootstrapApp 1 daemonQuitEnv initState).map fun r => (r.1.quitCalled, r.1.waitCalls)) =
      some (true, 0) := by
  obtain ⟨st2, hEq, hQuit, hWait⟩ := C4_daemon_quit_no_probe 0 daemonQuitEnv initState rfl rfl
  rw [hEq]
  simp [hQuit, hWait, initState]

/-- C10: `showDockerMissingDialog` returns `"quit"` for every dialog
response; the `"retry"` value of its declared `InstallAction` type is never
produced, and on response 0 the download page is opened externally while
`"quit"` is still returned. -/
theorem C10_install_dialog_always_quit (response : Nat) :
    (showDockerMissingDialog response).1 = InstallAction.quit ∧
    (response = 0 → (showDockerMissingDialog response).2 = [getDockerDownloadUrl]) := by
  unfold showDockerMissingDialog
  by_cases h : response = 0 <;> simp [h]

/-- Witness for C10 at responses 0 and 3. -/
theorem C10_install_dialog_always_quit_witness :
    (showDockerMissingDialog 0).1 = InstallAction.quit ∧
    (showDockerMissingDialog 0).2 = [getDockerDownloadUrl] ∧
    (showDockerMissingDialog 3).1 = InstallAction.quit :=
  ⟨(C10_install_dialog_always_quit 0).1, (C10_install_dialog_always_quit 0).2 rfl,
    (C10_install_dialog_always_quit 3).1⟩

/-- Counterexample to C2 as stated: in a run where the first `startStack`
reports `docker_daemon_off`, the user presses Retry once and the second pass
succeeds, TWO windows have been constructed — the retry re-enters
`bootstrapApp`, whose first action is `new BrowserWindow`, so the window
already created is not reused. Under the claim the count would be 1. -/
theorem C2_retry_window_not_reused_cex :
    ((bootstrapApp 2 retryOnceEnv initState).map fun r => r.1.windowsCreated) = some 2 ∧
    ((bootstrapApp 2 retryOnceEnv initState).map fun r => r.1.windowsCreated) ≠ some 1 := by
  constructor
  · rfl
  · decide

/-- C2 amended: when the status is `docker_daemon_off` and the user chooses
Retry, the orchestration pass is restarted from scratch (the whole of
`bootstrapApp` is re-run on the post-dialog state), but the retry does NOT
reuse the window already created: re-entry constructs a fresh window and
reassigns the owned `mainWindow` reference, so any completed run with at
least one retry has created at least two windows. -/
theorem C2_retry_restarts_fresh_window (env : Env) (st : AppState) (fuel : Nat)
    (h : env.startResults st.startCalls = Except.ok RuntimeStatus.docker_daemon_off)
    (hr : env.daemonOffResponses st.daemonDialogCalls = 0) :
    bootstrapOnce env st = ((bootstrapOnce env st).1, PassOutcome.retry) ∧
    bootstrapApp (fuel + 1) env st = bootstrapApp fuel env (bootstrapOnce env st).1 ∧
    (bootstrapOnce env st).1.windowsCreated = st.windowsCreated + 1 ∧
    (bootstrapOnce env st).1.mainWindow =
      some { id := st.nextWindowId, content := placeholderPage, hasClosedHook := false } ∧
    ∀ r, bootstrapApp fuel env (bootstrapOnce env st).1 = some r →
      st.windowsCreated + 2 ≤ r.1.windowsCreated := by
  have honce := bootstrapOnce_daemon_retry env st h hr
  refine ⟨?_, ?_, bootstrapOnce_windowsCreated env st, ?_, ?_⟩
  · rw [honce]
  · rw [bootstrapApp, honce]
  · rw [honce]
  · intro r hrr
    have hge := bootstrapApp_counters_ge fuel env (bootstrapOnce env st).1 r hrr
    have hwc := bootstrapOnce_windowsCreated env st
    omega

/-- Witness for the amended C2 in the one-retry environment. -/
theorem C2_retry_restarts_fresh_window_witness :
    (bootstrapOnce retryOnceEnv initState).2 = PassOutcome.retry ∧
    (bootstrapOnce retryOnceEnv initState).1.windowsCreated = 1 := by
  obtain ⟨hOnce, hStep, hWin, hMain, hGe⟩ :=
    C2_retry_restarts_fresh_window retryOnceEnv initState 1 rfl rfl
  constructor
  · rw [hOnce]
  · rw [hWin]
    rfl

/-- C5: if the daemon-off status is reported on the first `N + 1` probes of
a run and the user presses Retry in the first `N` daemon-off dialogs and
Quit in the last one, the run completes normally with exactly `N + 1` calls
to `startStack` — one for the initial pass plus exactly one per retry, for
every `N`, with no bound imposed by the orchestrator. -/
theorem C5_retry_start_call_count (env : Env) (st : AppState) (N : Nat)
    (hs : ∀ i, i ≤ N → env.startResults (st.startCalls + i) = Except.ok RuntimeStatus.docker_daemon_off)
    (hr : ∀ i, i < N → env.daemonOffResponses (st.daemonDialogCalls + i) = 0)
    (hq : env.daemonOffResponses (st.daemonDialogCalls + N) = 1) :
    ((bootstrapApp (N + 1) env st).map fun r => r.1.startCalls) = some (st.startCalls + (N + 1)) ∧
    ((bootstrapApp (N + 1) env st).map fun r => r.2.isOk) = some true := by
  induction N generalizing st with
  | zero =>
    have h0 : env.startResults st.startCalls = Except.ok RuntimeStatus.docker_daemon_off := by
      have := hs 0 (Nat.le_refl 0)
      simpa using this
    have hq0 : env.daemonOffResponses st.daemonDialogCalls = 1 := by simpa using hq
    have hrne : env.daemonOffResponses st.daemonDialogCalls ≠ 0 := by omega
    rw [bootstrapApp, bootstrapOnce_daemon_quit env st h0 hrne]
    simp [Except.isOk, Except.toBool]
  | succ N ih =>
    have h0 : env.startResults st.startCalls = Except.ok RuntimeStatus.docker_daemon_off := by
      have := hs 0 (Nat.zero_le _)
      simpa using this
    have hr0 : env.daemonOffResponses st.daemonDialogCalls = 0 := by
      have := hr 0 (Nat.succ_pos N)
      simpa using this
    have honce := bootstrapOnce_daemon_retry env st h0 hr0
    have hSC : (bootstrapOnce env st).1.startCalls = st.startCalls + 1 := by rw [honce]
    have hDC : (bootstrapOnce env st).1.daemonDialogCalls = st.daemonDialogCalls + 1 := by rw [honce]
    have hstep : bootstrapApp (N + 1 + 1) env st = bootstrapApp (N + 1) env (bootstrapOnce env st).1 := by
      rw [bootstrapApp, honce]
    have hmain := ih (bootstrapOnce env st).1 ?_ ?_ ?_
    · rw [hstep]
      refine ⟨?_, hmain.2⟩
      rw [hmain.1, hSC]
      simp only [Option.some.injEq]
      omega
    · intro i hi
      have harg : (bootstrapOnce env st).1.startCalls + i = st.startCalls + (i + 1) := by
        rw [hSC]; omega
      rw [harg]
      exact hs (i + 1) (by omega)
    · intro i hi
      have harg : (bootstrapOnce env st).1.daemonDialogCalls + i = st.daemonDialogCalls + (i + 1) := by
        rw [hDC]; omega
      rw [harg]
      exact hr (i + 1) (by omega)
    · have harg : (bootstrapOnce env st).1.daemonDialogCalls + N = st.daemonDialogCalls + (N + 1) := by
        rw [hDC]; omega
      rw [harg]
      exact hq

/-- Witness for C5 with `N = 2`: two retries, then Quit — three start calls. -/
theorem C5_retry_start_call_count_witness :
    ((bootstrapApp 3 (retryNTimesEnv 2) initState).map fun r => r.1.startCalls) = some 3 := by
  have h := C5_retry_start_call_count (retryNTimesEnv 2) initState 2 ?_ ?_ ?_
  · simpa [initState] using h.1
  · intro i hi
    rfl
  · intro i hi
    interval_cases i <;> decide
  · decide

/-- C6: `ready` status plus a positive readiness probe: the pass ends
normally, the owned window's displayed content becomes `APP_URL`, no error
notice is added, `app.quit` is not newly called, and a closed hook is
attached so that closing the window clears the owned reference. -/
theorem C6_launch_success (env : Env) (st : AppState)
    (h : env.startResults st.startCalls = Except.ok RuntimeStatus.ready)
    (hw : env.readyResults st.waitCalls = Except.ok true) :
    (bootstrapOnce env st).2 = PassOutcome.done ∧
    (bootstrapOnce env st).1.mainWindow =
      some { id := st.nextWindowId, content := APP_URL, hasClosedHook := true } ∧
    (bootstrapOnce env st).1.errorBoxes = st.errorBoxes ∧
    (bootstrapOnce env st).1.quitCalled = st.quitCalled ∧
    (closeMainWindow (bootstrapOnce env st).1).mainWindow = none := by
  rw [bootstrapOnce_ready_ok env st h hw]
  refine ⟨rfl, rfl, rfl, rfl, ?_⟩
  simp [closeMainWindow]

/-- Witness for C6 in the all-`ready` environment. -/
theorem C6_launch_success_witness :
    (bootstrapOnce happyEnv initState).2 = PassOutcome.done ∧
    (bootstrapOnce happyEnv initState).1.mainWindow =
      some { id := 0, content := APP_URL, hasClosedHook := true } ∧
    (bootstrapOnce happyEnv initState).1.errorBoxes = [] ∧
    (closeMainWindow (bootstrapOnce happyEnv initState).1).mainWindow = none := by
  have h := C6_launch_success happyEnv initState rfl rfl
  exact ⟨h.1, h.2.1, h.2.2.1, h.2.2.2.2⟩

/-- C7: `ready` status plus a failed readiness probe: the backend error
notice is shown, `app.quit` runs, and the window never loads `APP_URL` — it
still shows the placeholder page, which differs from the target URL. No
retry dialog exists on this path (the daemon-off dialog count is unchanged). -/
theorem C7_readiness_timeout (env : Env) (st : AppState)
    (h : env.startResults st.startCalls = Except.ok RuntimeStatus.ready)
    (hw : env.readyResults st.waitCalls = Except.ok false) :
    (bootstrapOnce env st).1.errorBoxes = st.errorBoxes ++ [(backendErrorTitle, backendErrorMessage)] ∧
    (bootstrapOnce env st).1.quitCalled = true ∧
    (bootstrapOnce env st).2 = PassOutcome.done ∧
    (bootstrapOnce env st).1.mainWindow =
      some { id := st.nextWindowId, content := placeholderPage, hasClosedHook := false } ∧
    (bootstrapOnce env st).1.daemonDialogCalls = st.daemonDialogCalls ∧
    placeholderPage ≠ APP_URL := by
  rw [bootstrapOnce_ready_timeout env st h hw]
  exact ⟨rfl, rfl, rfl, rfl, rfl, by decide⟩

/-- Witness for C7 in the timeout environment. -/
theorem C7_readiness_timeout_witness :
    (bootstrapOnce timeoutEnv initState).1.errorBoxes = [(backendErrorTitle, backendErrorMessage)] ∧
    (bootstrapOnce timeoutEnv initState).1.quitCalled = true ∧
    (bootstrapOnce timeoutEnv initState).1.mainWindow =
      some { id := 0, content := placeholderPage, hasClosedHook := false } := by
  have h := C7_readiness_timeout timeoutEnv initState rfl rfl
  exact ⟨h.1, h.2.1, h.2.2.2.1⟩

/-- C8: any exception a collaborator throws during a pass propagates to the
lifecycle handler's catch block and no further: the handler logs the raw
error, appends the one generic error notice — whose title and body are the
fixed strings, independent of the error — and quits. Both the process-ready
handler and the reactivation handler (with zero open windows) behave this
way. -/
theorem C8_unexpected_error_boundary (fuel : Nat) (env : Env) (st : AppState)
    (st2 : AppState) (e : String)
    (h : bootstrapApp fuel env st = some (st2, Except.error e)) :
    onReadyHandler fuel env st =
      some { st2 with
        logs := st2.logs ++ ["Bootstrap error: " ++ e]
        errorBoxes := st2.errorBoxes ++ [(unexpectedErrorTitle, unexpectedErrorMessage)]
        quitCalled := true } ∧
    onActivateHandler fuel env 0 st =
      some { st2 with
        logs := st2.logs ++ ["Bootstrap error: " ++ e]
        errorBoxes := st2.errorBoxes ++ [(unexpectedErrorTitle, unexpectedErrorMessage)]
        quitCalled := true } := by
  constructor <;> simp [onReadyHandler, onActivateHandler, runBootstrapWithCatch, h]

/-- Witness for C8: the first `startStack` call throws. -/
theorem C8_unexpected_error_boundary_witness :
    ((onReadyHandler 1 throwEnv initState).map fun s => (s.quitCalled, s.errorBoxes, s.logs)) =
      some (true, [(unexpectedErrorTitle, unexpectedErrorMessage)],
        ["Bootstrap error: " ++ "ENOENT docker compose"]) := by
  have h := C8_unexpected_error_boundary 1 throwEnv initState
    { initState with
        mainWindow := some { id := 0, content := placeholderPage, hasClosedHook := false }
        nextWindowId := 1
        windowsCreated := 1
        passesStarted := 1
        startCalls := 1 } "ENOENT docker compose" (by rfl)
  rw [h.1]
  simp [initState]

/-- If the user never presses Retry, a fuelled run consists of exactly the
one pass `bootstrapOnce` performs. -/
theorem bootstrapApp_no_retry (fuel : Nat) (env : Env) (st : AppState)
    (hNoRetry : ∀ n, env.daemonOffResponses n ≠ 0) :
    ∃ o, bootstrapApp (fuel + 1) env st = some ((bootstrapOnce env st).1, o) := by
  cases ho : bootstrapOnce env st with
  | mk st2 outcome =>
    rw [bootstrapApp, ho]
    cases outcome with
    | retry =>
      have hno := bootstrapOnce_no_retry env st hNoRetry
      rw [ho] at hno
      simp at hno
    | done => exact ⟨Except.ok (), rfl⟩
    | threw e => exact ⟨Except.error e, rfl⟩

/-- The catch wrapper never changes the window or pass counters: whatever
state the run ends in, the wrapper only adds a log line, an error box and
the quit flag. -/
theorem runBootstrapWithCatch_counters (fuel : Nat) (env : Env) (st st2 : AppState)
    (h : runBootstrapWithCatch fuel env st = some st2) :
    ∃ r, bootstrapApp fuel env st = some r ∧
      st2.windowsCreated = r.1.windowsCreated ∧ st2.passesStarted = r.1.passesStarted := by
  unfold runBootstrapWithCatch at h
  cases hb : bootstrapApp fuel env st with
  | none => rw [hb] at h; simp at h
  | some r =>
    rw [hb] at h
    cases r with
    | mk s o =>
      cases o with
      | ok u =>
        simp at h
        exact ⟨(s, Except.ok u), rfl, by rw [← h], by rw [← h]⟩
      | error e =>
        simp at h
        exact ⟨(s, Except.error e), rfl, by rw [← h], by rw [← h]⟩

/-- C9: the reactivation handler runs the orchestrator exactly when zero
windows are open — with a nonzero window count it does nothing at all — and
when it fires it starts one run, which (absent any Retry press) enters
exactly one orchestration pass and creates exactly one new window: not zero,
not two. -/
theorem C9_activate_trigger (fuel : Nat) (env : Env) (openWindowCount : Nat) (st : AppState)
    (hNoRetry : ∀ n, env.daemonOffResponses n ≠ 0) :
    (openWindowCount = 0 →
      onActivateHandler (fuel + 1) env openWindowCount st = runBootstrapWithCatch (fuel + 1) env st ∧
      ∀ st2, runBootstrapWithCatch (fuel + 1) env st = some st2 →
        st2.windowsCreated = st.windowsCreated + 1 ∧
        st2.passesStarted = st.passesStarted + 1) ∧
    (openWindowCount ≠ 0 → onActivateHandler (fuel + 1) env openWindowCount st = some st) := by
  constructor
  · intro h0
    constructor
    · simp [onActivateHandler, h0]
    · intro st2 hrun
      obtain ⟨r, hb, hwc, hpc⟩ := runBootstrapWithCatch_counters (fuel + 1) env st st2 hrun
      obtain ⟨o, hbo⟩ := bootstrapApp_no_retry fuel env st hNoRetry
      rw [hbo] at hb
      injection hb with hb
      rw [← hb] at hwc hpc
      simp [bootstrapOnce_windowsCreated env st] at hwc
      simp [bootstrapOnce_passesStarted env st] at hpc
      exact ⟨hwc, hpc⟩
  · intro hne
    simp [onActivateHandler, hne]

/-- Witness for C9: with one window open the handler is inert; with zero
windows it runs one pass and creates one window. -/
theorem C9_activate_trigger_witness :
    onActivateHandler 1 happyEnv 1 initState = some initState ∧
    ((onActivateHandler 1 happyEnv 0 initState).map fun s => (s.windowsCreated, s.passesStarted)) =
      some (1, 1) := by
  have h1 := C9_activate_trigger 0 happyEnv 1 initState (fun n => by simp [happyEnv])
  have h0 := C9_activate_trigger 0 happyEnv 0 initState (fun n => by simp [happyEnv])
  refine ⟨h1.2 (by decide), ?_⟩
  obtain ⟨hEq, hCnt⟩ := h0.1 rfl
  rw [hEq]
  obtain ⟨w, hw⟩ : ∃ w, runBootstrapWithCatch 1 happyEnv initState = some w := ⟨_, rfl⟩
  rw [hw]
  have hc := hCnt w hw
  simp [hc.1, hc.2, initState]
